import Mathlib

/-!
Verification development for the PAIE chat-session manager
(`src/PAIE.py` and `src/App.py`).

The SQLite store is shallowly embedded as a `Store` value holding the rows
of the `sessions` and `messages` tables.  The repository's `schema.sql` is
not part of the sources; following the spec's data model, row ids are
unique generated integers (modelled by strictly increasing counters, as
SQLite rowids behave under pure insertion) and `created_at` timestamps are
supplied by the caller as an explicit `now` argument (SQLite fills them
with `CURRENT_TIMESTAMP`).  The opaque `meta_json` annotation column is
read by no operation that the development reasons about, so it is omitted
from the row model.  SQL `ORDER BY` clauses over a key that is total on the
selected rows are modelled by `List.insertionSort` with the corresponding
relation; `LIMIT n` is `List.take n`.
-/

/-- One row of the `sessions` table: `sessions(id, title, created_at)`. -/
structure Session where
  id : Nat
  title : String
  created_at : Nat
deriving DecidableEq, Repr

/-- One row of the `messages` table:
`messages(id, session_id, role, content, reply_to_message_id, turn_index, created_at)`.
`role` is one of the strings "user", "assistant", "system" as written by the code. -/
structure Message where
  id : Nat
  session_id : Nat
  role : String
  content : String
  reply_to_message_id : Option Nat
  turn_index : Int
  created_at : Nat
deriving DecidableEq, Repr

/-- A `(role, content)` pair as sent to the inference backend
(the dicts built by `get_session_messages_as_chatml`). -/
structure Chatml where
  role : String
  content : String
deriving DecidableEq, Repr

/-- The state of the SQLite database file. -/
structure Store where
  sessions : List Session
  messages : List Message
  nextSessionId : Nat
  nextMessageId : Nat
deriving DecidableEq, Repr

/-- A freshly initialised database: both tables empty (SQLite rowids start at 1). -/
def emptyStore : Store := ⟨[], [], 1, 1⟩

/-- `ORDER BY turn_index ASC, id ASC` as a relation on message rows. -/
def msgLe (a b : Message) : Prop :=
  a.turn_index < b.turn_index ∨ (a.turn_index = b.turn_index ∧ a.id ≤ b.id)

instance : DecidableRel msgLe := fun a b => by unfold msgLe; infer_instance

instance : IsTotal Message msgLe :=
  ⟨fun a b => by unfold msgLe; omega⟩

instance : IsTrans Message msgLe :=
  ⟨fun a b c hab hbc => by unfold msgLe at *; omega⟩

/-- `ORDER BY created_at DESC, id DESC` as a relation on message rows
(`latestFirst a b` says row `a` sorts no later than row `b`, i.e. `a` is at
least as recent). -/
def latestFirst (a b : Message) : Prop :=
  b.created_at < a.created_at ∨ (b.created_at = a.created_at ∧ b.id ≤ a.id)

instance : DecidableRel latestFirst := fun a b => by unfold latestFirst; infer_instance

instance : IsTotal Message latestFirst :=
  ⟨fun a b => by unfold latestFirst; omega⟩

instance : IsTrans Message latestFirst :=
  ⟨fun a b c hab hbc => by unfold latestFirst at *; omega⟩

/-- `ORDER BY created_at DESC, id DESC` on session rows (`list_sessions` in App.py). -/
def sessLatestFirst (a b : Session) : Prop :=
  b.created_at < a.created_at ∨ (b.created_at = a.created_at ∧ b.id ≤ a.id)

instance : DecidableRel sessLatestFirst := fun a b => by unfold sessLatestFirst; infer_instance

instance : IsTotal Session sessLatestFirst :=
  ⟨fun a b => by unfold sessLatestFirst; omega⟩

instance : IsTrans Session sessLatestFirst :=
  ⟨fun a b c hab hbc => by unfold sessLatestFirst at *; omega⟩

/-- The rows of `messages` belonging to one session (`WHERE session_id = ?`). -/
def sessionMessages (s : Store) (sid : Nat) : List Message :=
  s.messages.filter (fun m => decide (m.session_id = sid))

/-- The system rows of one session (`WHERE session_id = ? AND role = 'system'`). -/
def systemMessages (s : Store) (sid : Nat) : List Message :=
  s.messages.filter (fun m => decide (m.session_id = sid ∧ m.role = "system"))

/-- `create_session(title)` (PAIE.py): inserts a session row, returns its generated id. -/
def create_session (s : Store) (title : String) (now : Nat) : Nat × Store :=
  (s.nextSessionId,
   { s with sessions := s.sessions ++ [⟨s.nextSessionId, title, now⟩],
            nextSessionId := s.nextSessionId + 1 })

/-- SQL `MAX(turn_index)` over a bag of rows: `NULL` (`none`) on the empty bag. -/
def sqlMaxTurn : List Message → Option Int
  | [] => none
  | m :: l =>
    match sqlMaxTurn l with
    | none => some m.turn_index
    | some v => some (max m.turn_index v)

/-- `next_turn_index(session_id)` (PAIE.py):
`SELECT COALESCE(MAX(turn_index), -1) + 1 FROM messages WHERE session_id = ?`. -/
def next_turn_index (s : Store) (sid : Nat) : Int :=
  (sqlMaxTurn (sessionMessages s sid)).getD (-1) + 1

/-- `add_user_message(session_id, content)` (PAIE.py): computes the next turn
index and inserts a role='user' row; returns `(message id, turn index)`. -/
def add_user_message (s : Store) (sid : Nat) (content : String) (now : Nat) :
    (Nat × Int) × Store :=
  let t := next_turn_index s sid
  ((s.nextMessageId, t),
   { s with messages := s.messages ++ [⟨s.nextMessageId, sid, "user", content, none, t, now⟩],
            nextMessageId := s.nextMessageId + 1 })

/-- `add_assistant_reply(session_id, content, reply_to_message_id, turn_index)`
(PAIE.py): inserts a role='assistant' row at `turn_index + 1`. -/
def add_assistant_reply (s : Store) (sid : Nat) (content : String)
    (reply_to : Option Nat) (turn_index : Int) (now : Nat) : Nat × Store :=
  (s.nextMessageId,
   { s with messages :=
        s.messages ++ [⟨s.nextMessageId, sid, "assistant", content, reply_to, turn_index + 1, now⟩],
            nextMessageId := s.nextMessageId + 1 })

/-- `get_conversation(session_id, limit)` (PAIE.py): full rows of the session
ordered by `turn_index ASC, id ASC`, capped at `limit`. -/
def get_conversation (s : Store) (sid : Nat) (limit : Nat) : List Message :=
  (List.insertionSort msgLe (sessionMessages s sid)).take limit

/-- `get_session_messages_as_chatml(session_id, max_messages)` (PAIE.py):
same query shape as `get_conversation`, projected to `(role, content)`. -/
def get_session_messages_as_chatml (s : Store) (sid : Nat) (max_messages : Nat) :
    List Chatml :=
  ((List.insertionSort msgLe (sessionMessages s sid)).take max_messages).map
    (fun m => ⟨m.role, m.content⟩)

/-- `set_system_prompt(session_id, text)` (PAIE.py): inserts a role='system'
row at the sentinel turn index -1. -/
def set_system_prompt (s : Store) (sid : Nat) (text : String) (now : Nat) : Store :=
  { s with messages := s.messages ++ [⟨s.nextMessageId, sid, "system", text, none, -1, now⟩],
           nextMessageId := s.nextMessageId + 1 }

/-- `get_latest_system_prompt(session_id)` (PAIE.py):
`SELECT content ... WHERE role='system' ORDER BY created_at DESC, id DESC LIMIT 1`. -/
def get_latest_system_prompt (s : Store) (sid : Nat) : Option String :=
  ((List.insertionSort latestFirst (systemMessages s sid)).head?).map Message.content

/-- `clear_system_prompt(session_id)` (PAIE.py):
`DELETE FROM messages WHERE session_id = ? AND role = 'system'`. -/
def clear_system_prompt (s : Store) (sid : Nat) : Store :=
  { s with messages :=
      s.messages.filter (fun m => !decide (m.session_id = sid ∧ m.role = "system")) }

/-- Step 2 of `ask_ollama`: the effective system prompt — the explicit
argument if it is not `None`, else the latest stored prompt. -/
def resolve_system_prompt (s : Store) (sid : Nat) (system_prompt : Option String) :
    Option String :=
  match system_prompt with
  | none => get_latest_system_prompt s sid
  | some p => some p

/-- Steps 2–3 of `ask_ollama`: the message list sent to the backend — a single
system entry when the resolved prompt is truthy (Python `if system_prompt:`,
so `None` and the empty string are skipped), followed by
`get_session_messages_as_chatml(session_id, max_messages=50)`. -/
def ask_build_messages (s : Store) (sid : Nat) (system_prompt : Option String) :
    List Chatml :=
  (match resolve_system_prompt s sid system_prompt with
   | some p => if p = "" then [] else [⟨"system", p⟩]
   | none => []) ++ get_session_messages_as_chatml s sid 50

/-- `ask_ollama(session_id, user_text, system_prompt)` (PAIE.py).  The HTTP
call to Ollama is abstracted as `backend`: `Except.error` models a transport
error, timeout, or non-2xx response (in Python, an exception propagating out
of `requests.post` / `raise_for_status`), and `Except.ok` the extracted
`data["message"]["content"]`.  Returns the outcome together with the store
left behind. -/
def ask_ollama (s : Store) (sid : Nat) (user_text : String)
    (system_prompt : Option String) (backend : List Chatml → Except String String)
    (now : Nat) : Except String String × Store :=
  match backend (ask_build_messages (add_user_message s sid user_text now).2 sid system_prompt) with
  | Except.error e => (Except.error e, (add_user_message s sid user_text now).2)
  | Except.ok assistant_text =>
      (Except.ok assistant_text,
       (add_assistant_reply (add_user_message s sid user_text now).2 sid assistant_text
          (some (add_user_message s sid user_text now).1.1)
          (add_user_message s sid user_text now).1.2 now).2)

/-- `list_sessions()` (App.py):
`SELECT id, title, created_at FROM sessions ORDER BY created_at DESC, id DESC`. -/
def list_sessions (s : Store) : List Session :=
  List.insertionSort sessLatestFirst s.sessions

/-- `ensure_session()` (App.py): the most recent existing session's id, or a
newly created session titled "New chat" when none exist. -/
def ensure_session (s : Store) (now : Nat) : Nat × Store :=
  match list_sessions s with
  | [] => create_session s "New chat" now
  | x :: _ => (x.id, s)

/-- Strict `(turn_index, id)` lexicographic order — the order in which
`get_conversation` rows come out when ids are unique. -/
def msgLt (a b : Message) : Prop :=
  a.turn_index < b.turn_index ∨ (a.turn_index = b.turn_index ∧ a.id < b.id)

/-- The stores reachable from a fresh database by the public operations, with
`add_assistant_reply` used as the orchestrator uses it (sequential
single-session use): its `turn_index` argument is the turn index of an
existing user message of the session, referenced by `reply_to_message_id`. -/
inductive Reach : Store → Prop where
  | init : Reach emptyStore
  | create {s : Store} {title : String} {now : Nat} :
      Reach s → Reach (create_session s title now).2
  | user {s : Store} {sid : Nat} {content : String} {now : Nat} :
      Reach s → Reach (add_user_message s sid content now).2
  | assistant {s : Store} {sid : Nat} {content : String} {rid : Nat} {t : Int} {now : Nat} :
      Reach s →
      (∃ m ∈ s.messages, m.session_id = sid ∧ m.role = "user" ∧ m.turn_index = t ∧ m.id = rid) →
      Reach (add_assistant_reply s sid content (some rid) t now).2
  | sysSet {s : Store} {sid : Nat} {text : String} {now : Nat} :
      Reach s → Reach (set_system_prompt s sid text now)
  | sysClear {s : Store} {sid : Nat} :
      Reach s → Reach (clear_system_prompt s sid)
  | askStep {s : Store} {sid : Nat} {txt : String} {sp : Option String}
      {backend : List Chatml → Except String String} {now : Nat} :
      Reach s → Reach (ask_ollama s sid txt sp backend now).2

/-- Well-formedness of a stored message row: its role is one of the three
strings the code writes, system rows sit at the sentinel turn index -1, and
user/assistant rows have non-negative turn indices. -/
def MsgWellFormed (m : Message) : Prop :=
  (m.role = "user" ∨ m.role = "assistant" ∨ m.role = "system")
  ∧ (m.role = "system" → m.turn_index = -1)
  ∧ (m.role ≠ "system" → 0 ≤ m.turn_index)

/-- A session that already holds 50 user messages (turn indices 0–49,
ids 1–50): one more `ask` overflows the 50-message context window. -/
def bigStore : Store :=
  ⟨[⟨1, "S1", 0⟩],
   (List.range 50).map (fun i => ⟨i + 1, 1, "user", "old", none, (i : Int), 0⟩),
   2, 51⟩

/-- A backend stub that always succeeds with the reply "hi". -/
def okBackend : List Chatml → Except String String := fun _ => Except.ok "hi"

/-- A backend stub that always fails, modelling a timeout. -/
def failBackend : List Chatml → Except String String := fun _ => Except.error "timeout"

/-- A store holding one session with one stored system prompt, for witnesses. -/
def promptStore : Store :=
  set_system_prompt (create_session emptyStore "S1" 0).2 1 "persona" 0

/-! ### Helper lemmas -/

theorem sqlMaxTurn_eq_none_iff (l : List Message) : sqlMaxTurn l = none ↔ l = [] := by
  cases l with
  | nil => simp [sqlMaxTurn]
  | cons a t => cases h : sqlMaxTurn t <;> simp [sqlMaxTurn, h]

theorem sqlMaxTurn_attained (l : List Message) (hl : l ≠ []) :
    ∃ m ∈ l, sqlMaxTurn l = some m.turn_index ∧ ∀ m' ∈ l, m'.turn_index ≤ m.turn_index := by
  induction l with
  | nil => exact absurd rfl hl
  | cons a t ih =>
    cases h : sqlMaxTurn t with
    | none =>
      have ht : t = [] := (sqlMaxTurn_eq_none_iff t).mp h
      subst ht
      exact ⟨a, by simp, by simp [sqlMaxTurn], by simp⟩
    | some v =>
      have ht : t ≠ [] := by
        intro he
        rw [he] at h
        simp [sqlMaxTurn] at h
      obtain ⟨m0, hm0, hmax, hbound⟩ := ih ht
      have hv : v = m0.turn_index := by
        rw [hmax] at h
        exact (Option.some.inj h).symm
      subst hv
      by_cases hc : a.turn_index ≤ m0.turn_index
      · refine ⟨m0, List.mem_cons_of_mem a hm0, ?_, ?_⟩
        · simp [sqlMaxTurn, h, max_eq_right hc]
        · intro m' hm'
          rcases List.mem_cons.mp hm' with he | hmem
          · rw [he]; exact hc
          · exact hbound m' hmem
      · refine ⟨a, List.mem_cons_self a t, ?_, ?_⟩
        · simp [sqlMaxTurn, h, max_eq_left (le_of_not_le hc)]
        · intro m' hm'
          rcases List.mem_cons.mp hm' with he | hmem
          · rw [he]
          · exact le_trans (hbound m' hmem) (le_of_not_le hc)

theorem next_turn_index_of_empty (s : Store) (sid : Nat)
    (h : sessionMessages s sid = []) : next_turn_index s sid = 0 := by
  simp [next_turn_index, h, sqlMaxTurn]

theorem next_turn_index_gt (s : Store) (sid : Nat) :
    ∀ m ∈ sessionMessages s sid, m.turn_index < next_turn_index s sid := by
  intro m hm
  have hne : sessionMessages s sid ≠ [] := by
    intro h
    rw [h] at hm
    cases hm
  obtain ⟨m0, _, hmax, hbound⟩ := sqlMaxTurn_attained _ hne
  have := hbound m hm
  simp only [next_turn_index, hmax, Option.getD_some]
  omega

theorem next_turn_index_nonneg (s : Store) (sid : Nat)
    (h : ∀ m ∈ sessionMessages s sid, -1 ≤ m.turn_index) : 0 ≤ next_turn_index s sid := by
  by_cases hne : sessionMessages s sid = []
  · rw [next_turn_index_of_empty s sid hne]
  · obtain ⟨m0, hm0, hmax, _⟩ := sqlMaxTurn_attained _ hne
    have := h m0 hm0
    simp only [next_turn_index, hmax, Option.getD_some]
    omega

theorem head_insertionSort_least {α : Type} (r : α → α → Prop) [DecidableRel r]
    [IsTotal α r] [IsTrans α r] (l : List α) (hl : l ≠ []) :
    ∃ m, (List.insertionSort r l).head? = some m ∧ m ∈ l ∧ ∀ x ∈ l, r m x := by
  have hp : List.Perm (List.insertionSort r l) l := List.perm_insertionSort r l
  have hs : List.Sorted r (List.insertionSort r l) := List.sorted_insertionSort r l
  cases h : List.insertionSort r l with
  | nil =>
    rw [h] at hp
    exact absurd hp.symm.eq_nil hl
  | cons a t =>
    rw [h] at hp hs
    refine ⟨a, rfl, hp.subset (List.mem_cons_self a t), ?_⟩
    intro x hx
    rcases List.mem_cons.mp (hp.symm.subset hx) with he | hmem
    · subst he
      rcases total_of r x x with h' | h' <;> exact h'
    · exact List.rel_of_sorted_cons hs x hmem

theorem head_latestFirst_strict_max (l : List Message) (m : Message) (hm : m ∈ l)
    (hmax : ∀ x ∈ l, x = m ∨ x.created_at < m.created_at ∨
      (x.created_at = m.created_at ∧ x.id < m.id)) :
    (List.insertionSort latestFirst l).head? = some m := by
  have hl : l ≠ [] := by
    intro h
    rw [h] at hm
    cases hm
  obtain ⟨h0, hh, hmem, hall⟩ := head_insertionSort_least latestFirst l hl
  have hrel := hall m hm
  rcases hmax h0 hmem with he | hlt
  · rw [hh, he]
  · exfalso
    unfold latestFirst at hrel
    omega

/-! ### Claim theorems -/

/-- Claim C3: `next_turn_index` returns 0 on a session with no messages and
`max(turn_index) + 1` otherwise; on an empty session the appended user message
gets turn index 0, and the assistant reply stored via `add_assistant_reply`
with that user message's turn index gets turn index 1. -/
theorem next_turn_index_spec (s : Store) (sid : Nat) (c c2 : String) (n1 n2 : Nat)
    (hempty : sessionMessages s sid = []) :
    next_turn_index s sid = 0
    ∧ (∀ s' : Store, ∀ sid' : Nat, sessionMessages s' sid' ≠ [] →
        ∃ m ∈ sessionMessages s' sid', next_turn_index s' sid' = m.turn_index + 1
          ∧ ∀ m' ∈ sessionMessages s' sid', m'.turn_index ≤ m.turn_index)
    ∧ (add_user_message s sid c n1).1.2 = 0
    ∧ (∃ ma : Message,
        (add_assistant_reply (add_user_message s sid c n1).2 sid c2
            (some (add_user_message s sid c n1).1.1) (add_user_message s sid c n1).1.2
            n2).2.messages
          = (add_user_message s sid c n1).2.messages ++ [ma]
        ∧ ma.role = "assistant" ∧ ma.turn_index = 1) := by
  have h0 : next_turn_index s sid = 0 := next_turn_index_of_empty s sid hempty
  refine ⟨h0, ?_, h0, ?_⟩
  · intro s' sid' hne
    obtain ⟨m, hm, hmax, hbound⟩ := sqlMaxTurn_attained _ hne
    exact ⟨m, hm, by simp only [next_turn_index, hmax, Option.getD_some], hbound⟩
  · refine ⟨_, rfl, rfl, ?_⟩
    show (add_user_message s sid c n1).1.2 + 1 = 1
    rw [show (add_user_message s sid c n1).1.2 = next_turn_index s sid from rfl, h0]
    omega

/-- Claim C3 witness: concrete instance on the empty store. -/
theorem next_turn_index_spec_witness :
    next_turn_index emptyStore 1 = 0
    ∧ (add_user_message emptyStore 1 "hello" 0).1.2 = 0 :=
  ⟨(next_turn_index_spec emptyStore 1 "hello" "hi" 0 0 (by decide)).1,
   (next_turn_index_spec emptyStore 1 "hello" "hi" 0 0 (by decide)).2.2.1⟩

/-- Claim C4: `add_assistant_reply` always appends exactly one new message,
with role assistant, content and reply-link as given, and stored turn index
`turn_index + 1`, whatever the prior state of the store. -/
theorem add_assistant_reply_turn_index_plus_one (s : Store) (sid : Nat)
    (content : String) (rid : Option Nat) (t : Int) (now : Nat) :
    ∃ m : Message,
      (add_assistant_reply s sid content rid t now).2.messages = s.messages ++ [m]
      ∧ m.role = "assistant" ∧ m.turn_index = t + 1
      ∧ m.reply_to_message_id = rid ∧ m.content = content ∧ m.session_id = sid :=
  ⟨_, rfl, rfl, rfl, rfl, rfl, rfl⟩

/-- Claim C9: `clear_system_prompt` removes every system-role message of the
session and keeps everything else: every surviving message is a non-system-or-
other-session original, every such original survives, the message list shrinks
to a sublist, and the sessions table is untouched. -/
theorem clear_system_prompt_frame (s : Store) (sid : Nat) :
    (∀ m ∈ (clear_system_prompt s sid).messages, ¬(m.session_id = sid ∧ m.role = "system"))
    ∧ (∀ m ∈ s.messages, ¬(m.session_id = sid ∧ m.role = "system") →
        m ∈ (clear_system_prompt s sid).messages)
    ∧ List.Sublist (clear_system_prompt s sid).messages s.messages
    ∧ (clear_system_prompt s sid).sessions = s.sessions := by
  refine ⟨?_, ?_, List.filter_sublist s.messages, rfl⟩
  · intro m hm
    have := List.of_mem_filter hm
    simp only [Bool.not_eq_true', decide_eq_false_iff_not] at this
    exact this
  · intro m hm hnot
    exact List.mem_filter.mpr ⟨hm, by
      simp only [Bool.not_eq_true', decide_eq_false_iff_not]
      exact hnot⟩

/-- Claim C9 witness: clearing session 1 of a store holding a system prompt and
a user message removes the system row, keeps the user row and the sessions. -/
theorem clear_system_prompt_frame_witness :
    Message.mk 2 1 "user" "hi" none 0 1
      ∈ (clear_system_prompt (add_user_message promptStore 1 "hi" 1).2 1).messages
    ∧ Message.mk 1 1 "system" "persona" none (-1) 0
      ∉ (clear_system_prompt (add_user_message promptStore 1 "hi" 1).2 1).messages
    ∧ (clear_system_prompt (add_user_message promptStore 1 "hi" 1).2 1).sessions
      = (add_user_message promptStore 1 "hi" 1).2.sessions :=
  ⟨(clear_system_prompt_frame (add_user_message promptStore 1 "hi" 1).2 1).2.1 _
      (by decide) (by decide),
   fun hmem => (clear_system_prompt_frame (add_user_message promptStore 1 "hi" 1).2 1).1 _
      hmem ⟨rfl, rfl⟩,
   (clear_system_prompt_frame (add_user_message promptStore 1 "hi" 1).2 1).2.2.2⟩

/-- Claim C2: when the backend call fails, `ask_ollama` propagates the error,
the store keeps exactly the user message appended in step 1 (turn index
freshly computed), and no assistant message is inserted by the call. -/
theorem ask_backend_failure_persists_user (s : Store) (sid : Nat) (txt : String)
    (sp : Option String) (backend : List Chatml → Except String String) (now : Nat)
    (e : String)
    (hfail : backend (ask_build_messages (add_user_message s sid txt now).2 sid sp)
      = Except.error e) :
    (ask_ollama s sid txt sp backend now).1 = Except.error e
    ∧ (ask_ollama s sid txt sp backend now).2.messages
        = s.messages ++ [⟨s.nextMessageId, sid, "user", txt, none, next_turn_index s sid, now⟩]
    ∧ ∀ m ∈ (ask_ollama s sid txt sp backend now).2.messages,
        m.role = "assistant" → m ∈ s.messages := by
  have hask : ask_ollama s sid txt sp backend now
      = (Except.error e, (add_user_message s sid txt now).2) := by
    unfold ask_ollama
    rw [hfail]
  refine ⟨by rw [hask], by rw [hask]; rfl, ?_⟩
  rw [hask]
  intro m hm hrole
  rcases List.mem_append.mp hm with hold | hnew
  · exact hold
  · rw [List.mem_singleton.mp hnew] at hrole
    have hua : ("user" : String) = "assistant" := hrole
    exact absurd hua (by decide)

/-- Claim C2 witness: a timing-out backend on the empty store leaves exactly
the user message behind and surfaces the error. -/
theorem ask_backend_failure_persists_user_witness :
    (ask_ollama emptyStore 1 "hello" none failBackend 0).1 = Except.error "timeout"
    ∧ (ask_ollama emptyStore 1 "hello" none failBackend 0).2.messages
      = emptyStore.messages
        ++ [⟨1, 1, "user", "hello", none, next_turn_index emptyStore 1, 0⟩] :=
  ⟨(ask_backend_failure_persists_user emptyStore 1 "hello" none failBackend 0 "timeout" rfl).1,
   (ask_backend_failure_persists_user emptyStore 1 "hello" none failBackend 0 "timeout" rfl).2.1⟩

/-- Claim C6: `get_conversation` returns at most `limit` messages, all of the
requested session, strictly ordered by `(turn_index, id)` lexicographically
(so non-decreasing in `turn_index`, and strictly increasing in `id` at equal
`turn_index`), provided the stored message ids are distinct. -/
theorem get_conversation_ordered (s : Store) (sid : Nat) (limit : Nat)
    (hids : s.messages.Pairwise (fun a b => a.id ≠ b.id)) :
    (get_conversation s sid limit).length ≤ limit
    ∧ (∀ m ∈ get_conversation s sid limit, m.session_id = sid)
    ∧ (get_conversation s sid limit).Pairwise msgLt := by
  have hsub : List.Sublist (sessionMessages s sid) s.messages := List.filter_sublist _
  have hperm : List.Perm (List.insertionSort msgLe (sessionMessages s sid))
      (sessionMessages s sid) := List.perm_insertionSort _ _
  have hids2 : (List.insertionSort msgLe (sessionMessages s sid)).Pairwise
      (fun a b => a.id ≠ b.id) :=
    (hperm.pairwise_iff (fun hxy => Ne.symm hxy)).mpr (hids.sublist hsub)
  have hsorted : List.Sorted msgLe (List.insertionSort msgLe (sessionMessages s sid)) :=
    List.sorted_insertionSort _ _
  have hlt : (List.insertionSort msgLe (sessionMessages s sid)).Pairwise msgLt := by
    refine (hsorted.and hids2).imp ?_
    intro a b hab
    obtain ⟨h1, h2⟩ := hab
    unfold msgLe at h1
    unfold msgLt
    omega
  refine ⟨List.length_take_le limit _, ?_, hlt.sublist (List.take_sublist _ _)⟩
  intro m hm
  have hm2 : m ∈ sessionMessages s sid :=
    hperm.subset ((List.take_sublist _ _).subset hm)
  have := List.of_mem_filter hm2
  simpa using this

/-- Claim C6 witness: concrete instance on a store with a system prompt and a
user message. -/
theorem get_conversation_ordered_witness :
    (get_conversation (add_user_message promptStore 1 "hi" 1).2 1 200).length ≤ 200
    ∧ (get_conversation (add_user_message promptStore 1 "hi" 1).2 1 200).Pairwise msgLt :=
  ⟨(get_conversation_ordered (add_user_message promptStore 1 "hi" 1).2 1 200 (by decide)).1,
   (get_conversation_ordered (add_user_message promptStore 1 "hi" 1).2 1 200 (by decide)).2.2⟩

/-- Claim C10: calling `ask_ollama` with the explicit system prompt `""` sends
the bare message window with no prepended system entry (the empty string is
falsy, and the stored prompt is not consulted because the argument is not
`None`), while the `None` argument falls back to the stored latest prompt and
prepends it when non-empty. -/
theorem ask_explicit_empty_prompt (s : Store) (sid : Nat) (txt : String) (now : Nat)
    (backend : List Chatml → Except String String) (p : String)
    (hp : get_latest_system_prompt (add_user_message s sid txt now).2 sid = some p)
    (hne : p ≠ "") :
    (ask_ollama s sid txt (some "") backend now).1
      = backend (get_session_messages_as_chatml (add_user_message s sid txt now).2 sid 50)
    ∧ (ask_ollama s sid txt none backend now).1
      = backend (Chatml.mk "system" p
          :: get_session_messages_as_chatml (add_user_message s sid txt now).2 sid 50) := by
  constructor
  · have hmsgs : ask_build_messages (add_user_message s sid txt now).2 sid (some "")
        = get_session_messages_as_chatml (add_user_message s sid txt now).2 sid 50 := by
      simp [ask_build_messages, resolve_system_prompt]
    unfold ask_ollama
    rw [hmsgs]
    cases backend (get_session_messages_as_chatml (add_user_message s sid txt now).2 sid 50) <;>
      rfl
  · have hmsgs : ask_build_messages (add_user_message s sid txt now).2 sid none
        = Chatml.mk "system" p
          :: get_session_messages_as_chatml (add_user_message s sid txt now).2 sid 50 := by
      simp [ask_build_messages, resolve_system_prompt, hp, hne]
    unfold ask_ollama
    rw [hmsgs]
    cases backend (Chatml.mk "system" p
      :: get_session_messages_as_chatml (add_user_message s sid txt now).2 sid 50) <;> rfl

/-- Claim C10 witness: on a store with stored prompt "persona", the explicit
empty prompt suppresses the system entry while `None` prepends "persona". -/
theorem ask_explicit_empty_prompt_witness :
    (ask_ollama promptStore 1 "q" (some "") okBackend 1).1
      = okBackend (get_session_messages_as_chatml (add_user_message promptStore 1 "q" 1).2 1 50)
    ∧ (ask_ollama promptStore 1 "q" none okBackend 1).1
      = okBackend (Chatml.mk "system" "persona"
          :: get_session_messages_as_chatml (add_user_message promptStore 1 "q" 1).2 1 50) :=
  ⟨(ask_explicit_empty_prompt promptStore 1 "q" 1 okBackend "persona" (by decide) (by decide)).1,
   (ask_explicit_empty_prompt promptStore 1 "q" 1 okBackend "persona" (by decide) (by decide)).2⟩

set_option maxRecDepth 100000 in
/-- Claim C1 (failing input): on a session already holding 50 messages, `ask`
persists the new user message (id 51, turn index 50), but the context list
built for the backend is the FIRST 50 rows in `(turn_index ASC, id ASC)` order
(`ORDER BY ... ASC LIMIT 50`), so the just-appended user message — the most
recent row — is NOT part of the list sent to the backend, contradicting the
claimed last-50 window. -/
theorem ask_window_drops_latest_user_message :
    Message.mk 51 1 "user" "new" none 50 7 ∈ (add_user_message bigStore 1 "new" 7).2.messages
    ∧ Chatml.mk "user" "new" ∉ ask_build_messages (add_user_message bigStore 1 "new" 7).2 1 none
    ∧ (ask_build_messages (add_user_message bigStore 1 "new" 7).2 1 none).length = 50 := by
  decide

/-- Claim C7: `set_system_prompt` always appends a fresh system row (the old
rows all survive), `get_latest_system_prompt` returns the content of a system
row that is most recent under `(created_at, id)` — `none` exactly when the
session has no system rows — and after three sequential prompts (ids fresh,
timestamps non-decreasing) it returns the third's content. -/
theorem set_system_prompt_latest_spec (s : Store) (sid : Nat) (t1 t2 t3 : String)
    (n1 n2 n3 : Nat)
    (hid : ∀ m ∈ s.messages, m.id < s.nextMessageId)
    (hts : ∀ m ∈ s.messages, m.created_at ≤ n1)
    (h12 : n1 ≤ n2) (h23 : n2 ≤ n3) :
    ((set_system_prompt s sid t1 n1).messages.length = s.messages.length + 1
      ∧ (∀ m ∈ s.messages, m ∈ (set_system_prompt s sid t1 n1).messages)
      ∧ Message.mk s.nextMessageId sid "system" t1 none (-1) n1
          ∈ (set_system_prompt s sid t1 n1).messages)
    ∧ (get_latest_system_prompt s sid = none ↔ systemMessages s sid = [])
    ∧ (∀ c, get_latest_system_prompt s sid = some c →
        ∃ m ∈ systemMessages s sid, m.content = c
          ∧ ∀ m' ∈ systemMessages s sid, latestFirst m m')
    ∧ get_latest_system_prompt
        (set_system_prompt (set_system_prompt (set_system_prompt s sid t1 n1) sid t2 n2)
          sid t3 n3) sid = some t3 := by
  refine ⟨⟨by simp [set_system_prompt], ?_, ?_⟩, ?_, ?_, ?_⟩
  · intro m hm
    exact List.mem_append_left _ hm
  · exact List.mem_append_right _ (List.mem_singleton.mpr rfl)
  · unfold get_latest_system_prompt
    rw [Option.map_eq_none', List.head?_eq_none_iff]
    constructor
    · intro h
      have hp := List.perm_insertionSort latestFirst (systemMessages s sid)
      rw [h] at hp
      exact hp.symm.eq_nil
    · intro h
      rw [h]
      rfl
  · intro c hc
    unfold get_latest_system_prompt at hc
    rw [Option.map_eq_some'] at hc
    obtain ⟨m0, hm0, hc0⟩ := hc
    have hne : systemMessages s sid ≠ [] := by
      intro h
      rw [h] at hm0
      simp [List.insertionSort] at hm0
    obtain ⟨m, hh, hmem, hall⟩ := head_insertionSort_least latestFirst _ hne
    have hmm : m = m0 := Option.some.inj (hh.symm.trans hm0)
    exact ⟨m0, hmm ▸ hmem, hc0, hmm ▸ hall⟩
  · have hsys : systemMessages
        (set_system_prompt (set_system_prompt (set_system_prompt s sid t1 n1) sid t2 n2)
          sid t3 n3) sid
        = systemMessages s sid
          ++ [⟨s.nextMessageId, sid, "system", t1, none, -1, n1⟩,
              ⟨s.nextMessageId + 1, sid, "system", t2, none, -1, n2⟩,
              ⟨s.nextMessageId + 2, sid, "system", t3, none, -1, n3⟩] := by
      simp [systemMessages, set_system_prompt, List.filter_append]
    have hhead : (List.insertionSort latestFirst (systemMessages
        (set_system_prompt (set_system_prompt (set_system_prompt s sid t1 n1) sid t2 n2)
          sid t3 n3) sid)).head?
        = some ⟨s.nextMessageId + 2, sid, "system", t3, none, -1, n3⟩ := by
      apply head_latestFirst_strict_max
      · rw [hsys]
        exact List.mem_append_right _ (by simp)
      · rw [hsys]
        intro x hx
        rcases List.mem_append.mp hx with hold | hnew
        · have hx1 : x ∈ s.messages := (List.filter_sublist _).subset hold
          have hc1 := hts x hx1
          have hi1 := hid x hx1
          right
          simp only
          omega
        · simp only [List.mem_cons, List.not_mem_nil, or_false] at hnew
          rcases hnew with he | he | he
          · subst he
            right
            simp only
            omega
          · subst he
            right
            simp only
            omega
          · subst he
            left
            rfl
    unfold get_latest_system_prompt
    rw [hhead]
    rfl

/-- Claim C7 witness: three prompts "a", "b", "c" on the empty store (the
first two at the same timestamp, so the id tie-break is exercised) — latest
returns "c". -/
theorem set_system_prompt_latest_spec_witness :
    get_latest_system_prompt
      (set_system_prompt (set_system_prompt (set_system_prompt emptyStore 1 "a" 0) 1 "b" 0)
        1 "c" 1) 1 = some "c" :=
  (set_system_prompt_latest_spec emptyStore 1 "a" "b" "c" 0 0 1
    (by simp [emptyStore]) (by simp [emptyStore]) (by omega) (by omega)).2.2.2

/-- Claim C8: `ensure_session` on an empty store creates exactly one session
titled "New chat" and returns its id, and a second call returns the same id
without creating another session; on a non-empty store it creates nothing and
returns the id of a session that is most recent under `(created_at, id)`. -/
theorem ensure_session_spec (s : Store) (n1 n2 : Nat) :
    (s.sessions = [] →
      (ensure_session s n1).1 = s.nextSessionId
      ∧ (ensure_session s n1).2.sessions = [⟨s.nextSessionId, "New chat", n1⟩]
      ∧ (ensure_session (ensure_session s n1).2 n2).1 = (ensure_session s n1).1
      ∧ (ensure_session (ensure_session s n1).2 n2).2 = (ensure_session s n1).2)
    ∧ (s.sessions ≠ [] →
      (ensure_session s n1).2 = s
      ∧ ∃ sess ∈ s.sessions, (ensure_session s n1).1 = sess.id
          ∧ ∀ x ∈ s.sessions, sessLatestFirst sess x) := by
  have step : ∀ (w : Store) (nn : Nat) (c : Session) (rest : List Session),
      list_sessions w = c :: rest → ensure_session w nn = (c.id, w) := by
    intro w nn c rest h
    unfold ensure_session
    rw [h]
  constructor
  · intro hempty
    have hls : list_sessions s = [] := by simp [list_sessions, hempty]
    have h1 : ensure_session s n1 = create_session s "New chat" n1 := by
      unfold ensure_session
      rw [hls]
    have hs1 : (ensure_session s n1).2.sessions = [⟨s.nextSessionId, "New chat", n1⟩] := by
      rw [h1]
      simp [create_session, hempty]
    have hls1 : list_sessions (ensure_session s n1).2
        = [⟨s.nextSessionId, "New chat", n1⟩] := by
      unfold list_sessions
      rw [hs1]
      simp
    have h2 : ensure_session (ensure_session s n1).2 n2
        = ((⟨s.nextSessionId, "New chat", n1⟩ : Session).id, (ensure_session s n1).2) :=
      step _ n2 _ [] hls1
    exact ⟨by rw [h1]; rfl, hs1, by rw [h2, h1]; rfl, by rw [h2]⟩
  · intro hne
    have hne2 : list_sessions s ≠ [] := by
      intro h
      have hp := List.perm_insertionSort sessLatestFirst s.sessions
      rw [show List.insertionSort sessLatestFirst s.sessions = list_sessions s from rfl,
        h] at hp
      exact hne hp.symm.eq_nil
    obtain ⟨a, t, hat⟩ := List.exists_cons_of_ne_nil hne2
    have h1 : ensure_session s n1 = (a.id, s) := step s n1 a t hat
    obtain ⟨m, hh, hmem, hall⟩ := head_insertionSort_least sessLatestFirst s.sessions hne
    have hm : (list_sessions s).head? = some m := hh
    rw [hat] at hm
    have hma : m = a := (Option.some.inj (show some a = some m from hm)).symm
    refine ⟨by rw [h1], m, hmem, ?_, hall⟩
    rw [h1, hma]

/-- Claim C8 witness: two calls on the empty store yield the same id and one
session; a call on a store that already has a session changes nothing. -/
theorem ensure_session_spec_witness :
    (ensure_session emptyStore 0).1 = emptyStore.nextSessionId
    ∧ (ensure_session (ensure_session emptyStore 0).2 5).1 = (ensure_session emptyStore 0).1
    ∧ (ensure_session promptStore 3).2 = promptStore :=
  ⟨((ensure_session_spec emptyStore 0 5).1 rfl).1,
   ((ensure_session_spec emptyStore 0 5).1 rfl).2.2.1,
   ((ensure_session_spec promptStore 3 4).2 (by decide)).1⟩

theorem next_turn_index_nonneg_of_inv (s : Store) (sid : Nat)
    (ih : ∀ m ∈ s.messages, MsgWellFormed m) : 0 ≤ next_turn_index s sid := by
  apply next_turn_index_nonneg
  intro m hm
  have hmem : m ∈ s.messages := by
    have hsub : List.Sublist (sessionMessages s sid) s.messages := List.filter_sublist _
    exact hsub.subset hm
  have h := ih m hmem
  by_cases hr : m.role = "system"
  · have := h.2.1 hr
    omega
  · have := h.2.2 hr
    omega

theorem add_user_preserves_inv (s : Store) (sid : Nat) (c : String) (now : Nat)
    (ih : ∀ m ∈ s.messages, MsgWellFormed m) :
    ∀ m ∈ (add_user_message s sid c now).2.messages, MsgWellFormed m := by
  intro m hm
  rw [show (add_user_message s sid c now).2.messages
      = s.messages ++ [⟨s.nextMessageId, sid, "user", c, none, next_turn_index s sid, now⟩]
      from rfl] at hm
  rcases List.mem_append.mp hm with hold | hnew
  · exact ih m hold
  · rw [List.mem_singleton.mp hnew]
    refine ⟨Or.inl rfl, ?_, ?_⟩
    · intro hr
      exact absurd (show ("user" : String) = "system" from hr) (by decide)
    · intro _
      show (0 : Int) ≤ next_turn_index s sid
      exact next_turn_index_nonneg_of_inv s sid ih

theorem reach_msg_invariant (s : Store) (hs : Reach s) :
    ∀ m ∈ s.messages, MsgWellFormed m := by
  induction hs with
  | init =>
    intro m hm
    exact absurd hm (List.not_mem_nil m)
  | create hr ih =>
    intro m hm
    exact ih m hm
  | user hr ih =>
    rename_i s' sid' c' n'
    exact add_user_preserves_inv s' sid' c' n' ih
  | assistant hr hex ih =>
    rename_i s' sid' c' rid' t' n'
    intro m hm
    rw [show (add_assistant_reply s' sid' c' (some rid') t' n').2.messages
        = s'.messages ++ [⟨s'.nextMessageId, sid', "assistant", c', some rid', t' + 1, n'⟩]
        from rfl] at hm
    rcases List.mem_append.mp hm with hold | hnew
    · exact ih m hold
    · rw [List.mem_singleton.mp hnew]
      obtain ⟨m0, hm0, hms, hmr, hmt, hmi⟩ := hex
      have hns : m0.role ≠ "system" := by
        rw [hmr]
        decide
      have ht0 : 0 ≤ m0.turn_index := (ih m0 hm0).2.2 hns
      refine ⟨Or.inr (Or.inl rfl), ?_, ?_⟩
      · intro hr2
        exact absurd (show ("assistant" : String) = "system" from hr2) (by decide)
      · intro _
        show (0 : Int) ≤ t' + 1
        omega
  | sysSet hr ih =>
    rename_i s' sid' txt' n'
    intro m hm
    rw [show (set_system_prompt s' sid' txt' n').messages
        = s'.messages ++ [⟨s'.nextMessageId, sid', "system", txt', none, -1, n'⟩]
        from rfl] at hm
    rcases List.mem_append.mp hm with hold | hnew
    · exact ih m hold
    · rw [List.mem_singleton.mp hnew]
      exact ⟨Or.inr (Or.inr rfl), fun _ => rfl, fun hns => absurd rfl hns⟩
  | sysClear hr ih =>
    rename_i s' sid'
    intro m hm
    have hmem : m ∈ s'.messages := by
      have hsub : List.Sublist (clear_system_prompt s' sid').messages s'.messages :=
        List.filter_sublist _
      exact hsub.subset hm
    exact ih m hmem
  | askStep hr ih =>
    rename_i s' sid' txt' sp' backend' n'
    intro m hm
    cases hb : backend' (ask_build_messages (add_user_message s' sid' txt' n').2 sid' sp') with
    | error e =>
      have hmsg : (ask_ollama s' sid' txt' sp' backend' n').2
          = (add_user_message s' sid' txt' n').2 := by
        unfold ask_ollama
        rw [hb]
      rw [hmsg] at hm
      exact add_user_preserves_inv s' sid' txt' n' ih m hm
    | ok atext =>
      have hmsg : (ask_ollama s' sid' txt' sp' backend' n').2
          = (add_assistant_reply (add_user_message s' sid' txt' n').2 sid' atext
              (some (add_user_message s' sid' txt' n').1.1)
              (add_user_message s' sid' txt' n').1.2 n').2 := by
        unfold ask_ollama
        rw [hb]
      rw [hmsg] at hm
      rw [show (add_assistant_reply (add_user_message s' sid' txt' n').2 sid' atext
            (some (add_user_message s' sid' txt' n').1.1)
            (add_user_message s' sid' txt' n').1.2 n').2.messages
          = (add_user_message s' sid' txt' n').2.messages
            ++ [⟨(add_user_message s' sid' txt' n').2.nextMessageId, sid', "assistant", atext,
                some (add_user_message s' sid' txt' n').1.1,
                (add_user_message s' sid' txt' n').1.2 + 1, n'⟩]
          from rfl] at hm
      rcases List.mem_append.mp hm with hold | hnew
      · exact add_user_preserves_inv s' sid' txt' n' ih m hold
      · rw [List.mem_singleton.mp hnew]
        have ht0 : 0 ≤ next_turn_index s' sid' := next_turn_index_nonneg_of_inv s' sid' ih
        refine ⟨Or.inr (Or.inl rfl), ?_, ?_⟩
        · intro hr2
          exact absurd (show ("assistant" : String) = "system" from hr2) (by decide)
        · intro _
          show (0 : Int) ≤ next_turn_index s' sid' + 1
          omega

/-- Claim C5: in every reachable store, a system-role message carries the
sentinel turn index -1, strictly below the turn index of every user or
assistant message of the same session (which is ≥ 0), so system rows always
sort first under `(turn_index ASC, id ASC)`. -/
theorem system_sentinel_strictly_below (s : Store) (hs : Reach s) (m1 m2 : Message)
    (h1 : m1 ∈ s.messages) (h2 : m2 ∈ s.messages) (hsid : m1.session_id = m2.session_id)
    (hr1 : m1.role = "system") (hr2 : m2.role = "user" ∨ m2.role = "assistant") :
    m1.turn_index = -1 ∧ m1.turn_index < m2.turn_index := by
  have i1 := reach_msg_invariant s hs m1 h1
  have i2 := reach_msg_invariant s hs m2 h2
  have e1 : m1.turn_index = -1 := i1.2.1 hr1
  have hr2' : m2.role ≠ "system" := by
    rcases hr2 with h | h <;> rw [h] <;> decide
  have e2 : 0 ≤ m2.turn_index := i2.2.2 hr2'
  exact ⟨e1, by omega⟩

/-- Claim C5 witness: in the reachable store obtained by appending a user
message and then a system prompt, the system row (index -1) sits strictly
below the user row (index 0). -/
theorem system_sentinel_strictly_below_witness :
    (Message.mk 2 1 "system" "p" none (-1) 1).turn_index = -1
    ∧ (Message.mk 2 1 "system" "p" none (-1) 1).turn_index
        < (Message.mk 1 1 "user" "hi" none 0 0).turn_index :=
  system_sentinel_strictly_below
    (set_system_prompt (add_user_message emptyStore 1 "hi" 0).2 1 "p" 1)
    (Reach.sysSet (Reach.user Reach.init))
    (Message.mk 2 1 "system" "p" none (-1) 1)
    (Message.mk 1 1 "user" "hi" none 0 0)
    (by decide) (by decide) rfl rfl (Or.inl rfl)
